import Mathlib

/-!
Verification development for the Cohere record processor.

The Go sources are shallowly embedded below:
* `ProcessorConfig`, `EmbedConfig`, `Validate`, `validateEmbedModel` mirror the
  configuration model and its manual validation (src/config.go).
* `processEmbedModel` mirrors the embed request handler and its retry loop
  (src/config.go, second part).  The vendor client and the context are external
  collaborators, so each iteration of the loop consumes one `EmbedEv` from an
  oracle script; the function is fuel-indexed because the Go loop can diverge.
* `processCommandModel` mirrors the command handler (src/unnamed/part_000).
* `Process` mirrors the model dispatcher (src/processor.go).
Durations are modelled as rationals (the Go code computes them in float64 over
`time.Duration` nanoseconds; the concrete unit is irrelevant to the theorems).
-/

namespace Cohere

/-- Checks that the list `s` starts with the list `sub` (on characters). -/
def listStartsWith : List Char → List Char → Bool
  | [], _ => true
  | _ :: _, [] => false
  | a :: as, b :: bs => a == b && listStartsWith as bs

/-- Checks that `sub` occurs contiguously inside `s` (on lists of characters). -/
def listContainsSub (sub : List Char) : List Char → Bool
  | [] => sub.isEmpty
  | c :: rest => listStartsWith sub (c :: rest) || listContainsSub sub rest

/-- Embedding of Go `strings.Contains s sub`. -/
def strContains (s sub : String) : Bool :=
  listContainsSub sub.toList s.toList

/-- Model family constant `CommandModel` (src/processor.go). -/
def CommandModel : String := "command"

/-- Model family constant `EmbedModel` (src/processor.go). -/
def EmbedModel : String := "embed"

/-- Model family constant `RerankModel` (src/processor.go). -/
def RerankModel : String := "rerank"

/-- Allowed values for `embeddingTypes` (src/config.go `allowedEmbeddingTypes`). -/
def allowedEmbeddingTypes : List String :=
  ["float", "int8", "uint8", "binary", "ubinary"]

/-- Allowed values for `inputType` (src/config.go `allowedInputTypes`). -/
def allowedInputTypes : List String :=
  ["search_document", "search_query", "classification", "clustering", "image"]

/-- Embedding of the Go `EmbedConfig` struct (src/config.go). -/
structure EmbedConfig where
  inputType : String
  embeddingTypes : List String
deriving Repr, DecidableEq

/-- Embedding of the Go `ProcessorConfig` struct (src/config.go).  The float64
fields and the duration fields are modelled as rationals. -/
structure ProcessorConfig where
  model : String
  modelVersion : String
  apiKey : String
  backoffRetryCount : ℚ
  backoffRetryFactor : ℚ
  backoffRetryMin : ℚ
  backoffRetryMax : ℚ
  responseBodyRef : String
  embedConfig : Option EmbedConfig
deriving Repr, DecidableEq

/-- The distinct errors that `Validate`/`validateEmbedModel` can return, one
constructor per `fmt.Errorf` site in src/config.go. -/
inductive ConfigError where
  | modelVersionMismatch
  | embedConfigRequired
  | invalidInputType (t : String)
  | emptyEmbeddingTypes
  | invalidEmbeddingType (t : String)
deriving Repr, DecidableEq

/-- Embedding of Go `validateEmbedModel` (src/config.go): `none` means the
checks pass, `some e` is the first violated rule, in source order. -/
def validateEmbedModel (c : ProcessorConfig) : Option ConfigError :=
  if !strContains c.modelVersion EmbedModel then
    some .modelVersionMismatch
  else
    match c.embedConfig with
    | none => some .embedConfigRequired
    | some ec =>
      if strContains c.modelVersion "v3" &&
          (ec.inputType == "" || !allowedInputTypes.contains ec.inputType) then
        some (.invalidInputType ec.inputType)
      else if ec.embeddingTypes.isEmpty then
        some .emptyEmbeddingTypes
      else
        match ec.embeddingTypes.find? (fun et => !allowedEmbeddingTypes.contains et) with
        | some et => some (.invalidEmbeddingType et)
        | none => none

/-- Embedding of Go `ProcessorConfig.Validate` (src/config.go). -/
def Validate (c : ProcessorConfig) : Option ConfigError :=
  if c.model = EmbedModel then validateEmbedModel c else none

/-- Helper used to state C4: the configured input type is non-empty and a
member of the allowed input-type set. -/
def inputTypeValid (c : ProcessorConfig) : Bool :=
  match c.embedConfig with
  | none => false
  | some ec => !(ec.inputType == "") && allowedInputTypes.contains ec.inputType

/-- The vendor error classes matched by the `errors.As` switch in
`processEmbedModel` (src/config.go): one constructor per cohere-go error type
named there. -/
inductive VendorError where
  | gatewayTimeout
  | internalServer
  | serviceUnavailable
  | badRequest
  | clientClosedRequest
  | forbidden
  | invalidToken
  | notFound
  | notImplemented
  | tooManyRequests
  | unauthorized
  | unprocessableEntity
deriving Repr, DecidableEq

/-- The retryable classification used by the `switch` in `processEmbedModel`
(src/config.go): exactly gateway-timeout, internal-server and
service-unavailable take the retry branch, every other class takes the
`default` branch. -/
def isRetryable : VendorError → Bool
  | .gatewayTimeout => true
  | .internalServer => true
  | .serviceUnavailable => true
  | _ => false

/-- The value written into the resolved response field: the command handler
writes the response text, the embed handler writes the embedding vectors
(abstracted to a list of integers). -/
inductive RespVal where
  | text (s : String)
  | embeddings (v : List Int)
deriving Repr, DecidableEq

/-- Embedding of an opencdc record as far as the processor touches it: the
`.Payload.After` bytes it reads, and the resolved response field it writes. -/
structure Record where
  payloadAfter : String
  response : Option RespVal
deriving Repr, DecidableEq

/-- Embedding of `Processor.setField` (src/processor.go): resolving and setting
the response reference can fail on a given record; whether it does is decided
by the external field-resolution capability, modelled by the `writeOk` oracle
bit carried by the call event.  `none` models the error return. -/
def setField (r : Record) (v : RespVal) (writeOk : Bool) : Option Record :=
  if writeOk then some { r with response := some v } else none

/-- The per-record errors a handler can emit, mirroring the three
`sdk.ErrorRecord` sources in the handlers: a vendor error, the context
cancellation error, and the wrapped setField error. -/
inductive ProcErr where
  | vendor (e : VendorError)
  | contextCancelled
  | setFieldFailed
deriving Repr, DecidableEq

/-- Embedding of `sdk.ProcessedRecord`: `single` is `sdk.SingleRecord`,
`errorRec` is `sdk.ErrorRecord`. -/
inductive ProcessedRecord where
  | single (r : Record)
  | errorRec (e : ProcErr)
deriving Repr, DecidableEq

/-- One iteration of the embed loop consumes one event from the environment:
either the vendor call returns embeddings (and the oracle bit says whether the
subsequent `setField` succeeds), or it returns an error (and the oracle bit
says whether the context is cancelled before the backoff timer fires, should
the iteration reach the `select`). -/
inductive EmbedEv where
  | callOk (v : List Int) (writeOk : Bool)
  | callErr (e : VendorError) (cancelDuringWait : Bool)
deriving Repr, DecidableEq

/-- Modelled from the spec: the backoff policy itself lives in an external
dependency, not under src.  Per section 4.2, `nextDelay()` returns
`min(max, min_wait * factor^attempt)` and increments the attempt counter as a
side effect; `attempt()` reads the counter; `reset()` zeroes it.  Only this
duration formula is modelled here; the counter is threaded through
`EmbedSt.attempt` below, incremented once per `Duration()` call exactly as the
handler calls it. -/
def backoffDuration (cfg : ProcessorConfig) (attempt : ℕ) : ℚ :=
  min cfg.backoffRetryMax (cfg.backoffRetryMin * cfg.backoffRetryFactor ^ attempt)

/-- The state threaded through the embed handler: the accumulated `out` slice,
the backoff attempt counter (the processor field `backoffCfg`, which persists
across calls), plus two ghost observations for stating the claims: the number
of vendor calls made and the list of wait durations actually slept. -/
structure EmbedSt where
  out : List ProcessedRecord
  attempt : ℕ
  calls : ℕ
  waits : List ℚ
deriving Repr, DecidableEq

/-- Embedding of the inner `for {}` loop of `processEmbedModel`
(src/config.go).  Each iteration: one vendor call (consuming one event), then
`attempt := Attempt()` and `duration := Duration()` (the latter increments the
counter), then the error switch.  A retryable error with `attempt < count`
sleeps (or returns the cancellation error), any other error returns; on
success the counter is `Reset()`, `setField` runs, a result is appended and —
the source has no `break` — the loop re-runs on the same record.  `some st`
models a function-level `return`; `none` models running out of fuel or of
scripted events, i.e. no observable return. -/
def embedInner (cfg : ProcessorConfig) :
    ℕ → Record → List EmbedEv → EmbedSt → Option EmbedSt
  | 0, _, _, _ => none
  | _ + 1, _, [], _ => none
  | fuel + 1, record, ev :: evs, st =>
    let attempt := st.attempt
    let duration := backoffDuration cfg st.attempt
    let st1 : EmbedSt := { st with calls := st.calls + 1, attempt := st.attempt + 1 }
    match ev with
    | .callErr e cancel =>
      if isRetryable e then
        if (attempt : ℚ) < cfg.backoffRetryCount then
          if cancel then
            some { st1 with out := st1.out ++ [.errorRec .contextCancelled] }
          else
            embedInner cfg fuel record evs { st1 with waits := st1.waits ++ [duration] }
        else
          some { st1 with out := st1.out ++ [.errorRec (.vendor e)] }
      else
        some { st1 with out := st1.out ++ [.errorRec (.vendor e)] }
    | .callOk v writeOk =>
      let st2 : EmbedSt := { st1 with attempt := 0 }
      match setField record (.embeddings v) writeOk with
      | none => some { st2 with out := st2.out ++ [.errorRec .setFieldFailed] }
      | some record2 =>
        embedInner cfg fuel record2 evs { st2 with out := st2.out ++ [.single record2] }

/-- Embedding of the outer `for _, record := range records` loop of
`processEmbedModel` (src/config.go).  Every exit from the inner loop is a
function-level `return` (the source has no `break`), so control never falls
through to a subsequent record; the remaining records are carried only to make
that explicit in the theorems. -/
def embedOuter (cfg : ProcessorConfig) (fuel : ℕ) (records : List Record)
    (evs : List EmbedEv) (st : EmbedSt) : Option EmbedSt :=
  match records with
  | [] => some st
  | record :: _rest => embedInner cfg fuel record evs st

/-- Embedding of `Processor.processEmbedModel` (src/config.go), with the
persisted backoff counter passed in as `backoff0` (the `backoffCfg` field of
the processor outlives each call). -/
def processEmbedModel (cfg : ProcessorConfig) (backoff0 : ℕ) (records : List Record)
    (evs : List EmbedEv) (fuel : ℕ) : Option EmbedSt :=
  embedOuter cfg fuel records evs { out := [], attempt := backoff0, calls := 0, waits := [] }

/-- One command-handler vendor call outcome per record: the chat response text
and the setField oracle bit, or a vendor error. -/
inductive ChatEv where
  | ok (resp : String) (writeOk : Bool)
  | err (e : VendorError)
deriving Repr, DecidableEq

/-- Embedding of `Processor.processCommandModel` (src/unnamed/part_000): one
vendor call per record; on a call error or a setField error the function
returns the results accumulated so far plus that error record; otherwise it
appends a success result and moves to the next record.  Each record is paired
with its scripted call outcome. -/
def processCommandModel : List (Record × ChatEv) → List ProcessedRecord
  | [] => []
  | (record, ev) :: rest =>
    match ev with
    | .err e => [.errorRec (.vendor e)]
    | .ok resp writeOk =>
      match setField record (.text resp) writeOk with
      | none => [.errorRec .setFieldFailed]
      | some record2 => .single record2 :: processCommandModel rest

/-- Modelled from the spec: the rerank handler source file is not under src
(only the dispatcher in src/processor.go names `processRerankModel`).  Section
4.4 specifies the same single-call-per-record, stop-on-first-failure pattern
as the command handler, so it is modelled by the same function. -/
def processRerankModel : List (Record × ChatEv) → List ProcessedRecord :=
  processCommandModel

/-- Embedding of `Processor.Process` (src/processor.go): dispatch on the
configured model; the `default` branch only logs and leaves the initial empty
slice.  The command/rerank batch carries the per-record chat events, the embed
handler consumes `embedEvs` with `fuel`; `none` bubbles up the embed handler
running off its script or fuel. -/
def Process (cfg : ProcessorConfig) (records : List (Record × ChatEv))
    (embedEvs : List EmbedEv) (fuel : ℕ) (backoff0 : ℕ) :
    Option (List ProcessedRecord) :=
  if cfg.model = CommandModel then
    some (processCommandModel records)
  else if cfg.model = EmbedModel then
    (processEmbedModel cfg backoff0 (records.map Prod.fst) embedEvs fuel).map EmbedSt.out
  else if cfg.model = RerankModel then
    some (processRerankModel records)
  else
    some []

/-- Modelled from the spec: the `gt=-1` rule on `backoffRetry.count` and the
`gt=0` rule on `backoffRetry.factor` are declared as struct tags in src but
executed by generated paramgen code and the SDK config validator, which are
not under src.  Section 6 documents them as: count must be greater than -1,
factor must be greater than 0.  Returns true when both parameters pass. -/
def backoffParamsValid (count factor : ℚ) : Bool :=
  decide (-1 < count) && decide (0 < factor)

/-- A concrete embed configuration with the default retry count 0 (durations in
milliseconds: min 100ms, max 5000ms, factor 2). -/
def cfgEmbedDefault : ProcessorConfig :=
  { model := "embed", modelVersion := "embed-v3", apiKey := "k"
    backoffRetryCount := 0, backoffRetryFactor := 2
    backoffRetryMin := 100, backoffRetryMax := 5000
    responseBodyRef := ".Payload.After"
    embedConfig := some { inputType := "search_document", embeddingTypes := ["float"] } }

/-- A concrete embed configuration with `backoffRetry.count = 2` and otherwise
default retry parameters. -/
def cfgRetry : ProcessorConfig :=
  { cfgEmbedDefault with backoffRetryCount := 2 }

/-- The configuration of spec scenario 3: embed model, v3 version, an embed
config whose input type is the string "invalid" and no embedding types. -/
def cfgScenario3 : ProcessorConfig :=
  { cfgEmbedDefault with
    embedConfig := some { inputType := "invalid", embeddingTypes := [] } }

/-- A configuration whose model is none of command, embed, rerank. -/
def cfgUnknown : ProcessorConfig :=
  { cfgEmbedDefault with model := "gpt" }

/-- A command-model configuration carrying a present but invalid embed config
(empty embedding types, invalid input type). -/
def cfgCommandLoose : ProcessorConfig :=
  { cfgEmbedDefault with
    model := "command", modelVersion := "command"
    embedConfig := some { inputType := "invalid", embeddingTypes := [] } }

/-- A concrete input record. -/
def rec0 : Record := { payloadAfter := "hello", response := none }

/-- `rec0` after the embed response `[1]` has been written into its resolved
response field. -/
def rec1 : Record := { payloadAfter := "hello", response := some (.embeddings [1]) }

/-- A second concrete input record. -/
def recA : Record := { payloadAfter := "aa", response := none }

/-- A third concrete input record. -/
def recB : Record := { payloadAfter := "bb", response := none }

/-- The embed-handler state at function entry with a fresh backoff counter. -/
def st0 : EmbedSt := { out := [], attempt := 0, calls := 0, waits := [] }

/-- True when a scripted command call returns successfully and the subsequent
field write succeeds, so the command handler advances past this record. -/
def chatStepOk : Record × ChatEv → Bool
  | (_, .ok _ writeOk) => writeOk
  | (_, .err _) => false

/-- The success result the command handler emits for a record whose scripted
call returned the given response text. -/
def chatSuccess : Record × ChatEv → ProcessedRecord
  | (record, .ok resp _) => .single { record with response := some (.text resp) }
  | (record, .err _) => .single record

/-- C10: a configuration whose model is not "embed" passes `Validate`
unconditionally; no cross-field check applies. -/
theorem validate_non_embed (c : ProcessorConfig) (h : c.model ≠ EmbedModel) :
    Validate c = none := by
  rw [Validate, if_neg h]

/-- C10 witness: a command-model configuration carrying a present but invalid
embed config (empty embedding types, invalid input type) still validates. -/
theorem validate_non_embed_witness :
    cfgCommandLoose.model ≠ EmbedModel ∧ Validate cfgCommandLoose = none :=
  ⟨by decide, validate_non_embed cfgCommandLoose (by decide)⟩

/-- C4: scenario 3 (embed model, version "embed-v3", input type "invalid", no
embedding types) fails with the invalid-input-type error; and in general, for
every configuration with model "embed" and a version containing "v3",
validation fails whenever the input type is empty, absent, or outside the
allowed input-type set. -/
theorem validate_v3_input_type :
    Validate cfgScenario3 = some (ConfigError.invalidInputType "invalid") ∧
    ∀ c : ProcessorConfig, c.model = EmbedModel →
      strContains c.modelVersion "v3" = true →
      inputTypeValid c = false → Validate c ≠ none := by
  refine ⟨by decide, ?_⟩
  intro c h1 h2 h3 hnone
  rw [Validate, if_pos h1, validateEmbedModel] at hnone
  split at hnone
  · simp at hnone
  · rcases hec : c.embedConfig with _ | ec
    · simp only [hec] at hnone
      simp at hnone
    · simp only [hec] at hnone
      simp only [inputTypeValid, hec] at h3
      split at hnone
      · simp at hnone
      · rename_i hB
        refine hB ?_
        rw [h2, Bool.true_and]
        rcases Bool.and_eq_false_iff.mp h3 with hb | hb
        · have hb1 : (ec.inputType == "") = true := by simpa using hb
          rw [hb1, Bool.true_or]
        · rw [hb]
          simp

/-- C4 witness: the scenario-3 configuration satisfies the hypotheses of the
general statement and indeed fails validation. -/
theorem validate_v3_input_type_witness :
    (cfgScenario3.model = EmbedModel ∧ strContains cfgScenario3.modelVersion "v3" = true ∧
      inputTypeValid cfgScenario3 = false) ∧ Validate cfgScenario3 ≠ none :=
  ⟨⟨rfl, by decide, by decide⟩,
    validate_v3_input_type.2 cfgScenario3 rfl (by decide) (by decide)⟩

/-- C9: when the configured model is none of command, embed, rerank, `Process`
returns the empty result list regardless of the batch. -/
theorem process_unknown_model (cfg : ProcessorConfig) (records : List (Record × ChatEv))
    (embedEvs : List EmbedEv) (fuel backoff0 : ℕ)
    (h1 : cfg.model ≠ CommandModel) (h2 : cfg.model ≠ EmbedModel)
    (h3 : cfg.model ≠ RerankModel) :
    Process cfg records embedEvs fuel backoff0 = some [] := by
  rw [Process, if_neg h1, if_neg h2, if_neg h3]

/-- C9 witness: a configuration with model "gpt" yields the empty result list
on a non-empty batch. -/
theorem process_unknown_model_witness :
    (cfgUnknown.model ≠ CommandModel ∧ cfgUnknown.model ≠ EmbedModel ∧
      cfgUnknown.model ≠ RerankModel) ∧
    Process cfgUnknown [(recA, .ok "x" true)] [] 5 0 = some [] :=
  ⟨⟨by decide, by decide, by decide⟩,
    process_unknown_model cfgUnknown [(recA, .ok "x" true)] [] 5 0
      (by decide) (by decide) (by decide)⟩

/-- C6: when the vendor embed call for the current record fails with a
non-retryable error class, the handler appends exactly one error result
carrying that error, performs no backoff wait (the wait list is unchanged) and
no retry (exactly one more vendor call, the remaining script untouched), and
returns from the whole function, so no further record of the batch is
processed. -/
theorem embed_nonretryable_stops (cfg : ProcessorConfig) (fuel : ℕ) (record : Record)
    (e : VendorError) (cancel : Bool) (evs : List EmbedEv) (st : EmbedSt)
    (h : isRetryable e = false) :
    embedInner cfg (fuel + 1) record (.callErr e cancel :: evs) st
      = some { out := st.out ++ [.errorRec (.vendor e)],
               attempt := st.attempt + 1, calls := st.calls + 1, waits := st.waits } := by
  simp [embedInner, h]

/-- C6 witness: an unauthorized error on the first call of a fresh state. -/
theorem embed_nonretryable_stops_witness :
    isRetryable VendorError.unauthorized = false ∧
    embedInner cfgEmbedDefault 1 rec0 [.callErr .unauthorized false] st0
      = some { out := [.errorRec (.vendor .unauthorized)],
               attempt := 1, calls := 1, waits := [] } :=
  ⟨rfl, embed_nonretryable_stops cfgEmbedDefault 0 rec0 .unauthorized false [] st0 rfl⟩

/-- C8: if cancellation fires while the handler is suspended in a retry wait,
the current record fails with the cancellation error as its emitted error
result and the function returns, so none of the remaining records of the batch
are processed (stated once at an arbitrary loop state, and once for a whole
batch whose tail contributes nothing to the result list). -/
theorem embed_cancel_during_wait :
    (∀ (cfg : ProcessorConfig) (fuel : ℕ) (record : Record) (e : VendorError)
        (evs : List EmbedEv) (st : EmbedSt),
      isRetryable e = true → (st.attempt : ℚ) < cfg.backoffRetryCount →
      embedInner cfg (fuel + 1) record (.callErr e true :: evs) st
        = some { out := st.out ++ [.errorRec .contextCancelled],
                 attempt := st.attempt + 1, calls := st.calls + 1, waits := st.waits }) ∧
    (∀ (cfg : ProcessorConfig) (fuel : ℕ) (record : Record) (rest : List Record)
        (e : VendorError) (evs : List EmbedEv) (backoff0 : ℕ),
      isRetryable e = true → (backoff0 : ℚ) < cfg.backoffRetryCount →
      processEmbedModel cfg backoff0 (record :: rest) (.callErr e true :: evs) (fuel + 1)
        = some { out := [.errorRec .contextCancelled],
                 attempt := backoff0 + 1, calls := 1, waits := [] }) := by
  have base : ∀ (cfg : ProcessorConfig) (fuel : ℕ) (record : Record) (e : VendorError)
      (evs : List EmbedEv) (st : EmbedSt),
      isRetryable e = true → (st.attempt : ℚ) < cfg.backoffRetryCount →
      embedInner cfg (fuel + 1) record (.callErr e true :: evs) st
        = some { out := st.out ++ [.errorRec .contextCancelled],
                 attempt := st.attempt + 1, calls := st.calls + 1, waits := st.waits } := by
    intro cfg fuel record e evs st hre hlt
    simp [embedInner, hre, hlt]
  refine ⟨base, ?_⟩
  intro cfg fuel record rest e evs backoff0 hre hlt
  rw [processEmbedModel, embedOuter]
  exact base cfg fuel record e evs _ hre hlt

/-- C8 witness: cancellation during the first retry wait on a two-record batch
with retry count 2; the second record contributes nothing. -/
theorem embed_cancel_during_wait_witness :
    isRetryable VendorError.serviceUnavailable = true ∧
    ((0 : ℕ) : ℚ) < cfgRetry.backoffRetryCount ∧
    processEmbedModel cfgRetry 0 [rec0, recA] [.callErr .serviceUnavailable true] 9
      = some { out := [.errorRec .contextCancelled], attempt := 1, calls := 1, waits := [] } :=
  ⟨rfl, by norm_num [cfgRetry, cfgEmbedDefault],
    embed_cancel_during_wait.2 cfgRetry 8 rec0 [recA] .serviceUnavailable [] 0 rfl
      (by norm_num [cfgRetry, cfgEmbedDefault])⟩

/-- C2: with retry count 2 and a fresh backoff counter, three consecutive
retryable vendor errors make the handler call the vendor exactly 3 times
(1 initial attempt plus 2 retries), wait min(max, min*factor^0) before the
first retry and min(max, min*factor^1) before the second (per the spec-modelled
backoff policy), and then return a terminal error result carrying the vendor
error. -/
theorem embed_retry_exhaustion (cfg : ProcessorConfig) (e : VendorError) (record : Record)
    (fuel : ℕ) (hre : isRetryable e = true) (hcnt : cfg.backoffRetryCount = 2) :
    processEmbedModel cfg 0 [record]
      [.callErr e false, .callErr e false, .callErr e false] (fuel + 1 + 1 + 1)
      = some { out := [.errorRec (.vendor e)], attempt := 3, calls := 3,
               waits := [min cfg.backoffRetryMax (cfg.backoffRetryMin * cfg.backoffRetryFactor ^ 0),
                         min cfg.backoffRetryMax (cfg.backoffRetryMin * cfg.backoffRetryFactor ^ 1)] } := by
  have h0 : (0 : ℚ) < cfg.backoffRetryCount := by rw [hcnt]; norm_num
  have h1 : (1 : ℚ) < cfg.backoffRetryCount := by rw [hcnt]; norm_num
  have h2 : ¬ (2 : ℚ) < cfg.backoffRetryCount := by rw [hcnt]; norm_num
  rw [processEmbedModel, embedOuter]
  simp [embedInner, backoffDuration, hre, h0, h1, h2]

/-- C2 witness: retry count 2, factor 2, min 100, max 5000; the waits are
100 and 200 and the gateway-timeout error is returned after 3 calls. -/
theorem embed_retry_exhaustion_witness :
    isRetryable VendorError.gatewayTimeout = true ∧ cfgRetry.backoffRetryCount = 2 ∧
    processEmbedModel cfgRetry 0 [rec0]
      [.callErr .gatewayTimeout false, .callErr .gatewayTimeout false, .callErr .gatewayTimeout false] 3
      = some { out := [.errorRec (.vendor .gatewayTimeout)], attempt := 3, calls := 3,
               waits := [100, 200] } := by
  refine ⟨rfl, rfl, ?_⟩
  have h := embed_retry_exhaustion cfgRetry .gatewayTimeout rec0 0 rfl rfl
  norm_num [cfgRetry, cfgEmbedDefault] at h
  exact h

/-- C1 (code bug): the inner retry loop of `processEmbedModel` has no `break`
after the success path, so after a successful call and write the handler does
not proceed to the next record but re-invokes the vendor for the same record.
On a one-record batch whose scripted vendor outcomes are success, success,
bad-request, the handler emits two success results for the single record plus
one error result: the returned list is strictly longer than the batch. -/
theorem embed_success_missing_break :
    processEmbedModel cfgEmbedDefault 0 [rec0]
      [.callOk [1] true, .callOk [1] true, .callErr .badRequest false] 9
      = some { out := [.single rec1, .single rec1, .errorRec (.vendor .badRequest)],
               attempt := 1, calls := 3, waits := [] } ∧
    List.length [rec0] < 3 := by
  exact ⟨by decide, by decide⟩

/-- C3 counterexample: the attempt counter is not reset at record boundaries.
After a batch ending in a non-retryable failure the persisted counter is 1,
not 0; and an invocation whose first record begins at counter 1 (with retry
count 2) makes only 2 vendor calls on three scripted retryable errors, while a
record begun at the initial counter 0 makes 3 — so a record does not always
begin processing at the initial (zero) counter state. -/
theorem embed_counter_survives_failure :
    ((processEmbedModel cfgEmbedDefault 0 [rec0] [.callErr .badRequest false] 5).map
        EmbedSt.attempt = some 1) ∧
    ((processEmbedModel cfgRetry 1 [rec0]
        [.callErr .gatewayTimeout false, .callErr .gatewayTimeout false,
         .callErr .gatewayTimeout false] 9).map EmbedSt.calls = some 2) ∧
    ((processEmbedModel cfgRetry 0 [rec0]
        [.callErr .gatewayTimeout false, .callErr .gatewayTimeout false,
         .callErr .gatewayTimeout false] 9).map EmbedSt.calls = some 3) := by
  refine ⟨by decide, by decide, by decide⟩

/-- C3 (amended): the attempt counter is zeroed after every successful vendor
call (the loop continues on the same record with the counter at 0), but it is
not reset at the start of a record: after a non-retryable failure the handler
returns with the counter advanced by one, and that value persists into the
processing of the next record. -/
theorem embed_counter_reset_only_after_success :
    (∀ (cfg : ProcessorConfig) (fuel : ℕ) (record : Record) (v : List Int)
        (evs : List EmbedEv) (st : EmbedSt),
      embedInner cfg (fuel + 1) record (.callOk v true :: evs) st
        = embedInner cfg fuel { record with response := some (.embeddings v) } evs
            { out := st.out ++ [.single { record with response := some (.embeddings v) }],
              attempt := 0, calls := st.calls + 1, waits := st.waits }) ∧
    (∀ (cfg : ProcessorConfig) (fuel : ℕ) (record : Record) (e : VendorError)
        (cancel : Bool) (evs : List EmbedEv) (st : EmbedSt),
      isRetryable e = false →
      (embedInner cfg (fuel + 1) record (.callErr e cancel :: evs) st).map
        EmbedSt.attempt = some (st.attempt + 1)) := by
  constructor
  · intro cfg fuel record v evs st
    simp [embedInner, setField]
  · intro cfg fuel record e cancel evs st h
    simp [embedInner, h]

/-- C3 amended witness: a bad-request failure from the fresh state leaves the
counter at 1. -/
theorem embed_counter_reset_only_after_success_witness :
    isRetryable VendorError.badRequest = false ∧
    (embedInner cfgEmbedDefault 1 rec0 [.callErr .badRequest false] st0).map
      EmbedSt.attempt = some 1 :=
  ⟨rfl, embed_counter_reset_only_after_success.2 cfgEmbedDefault 0 rec0 .badRequest
    false [] st0 rfl⟩

/-- C7: in the command handler, when the vendor call for some record fails,
the handler returns exactly the success results produced for the preceding
records plus one error result carrying the underlying error; the records after
the failing one contribute nothing to the result list. -/
theorem command_error_stops_batch (pre : List (Record × ChatEv)) (record : Record)
    (e : VendorError) (rest : List (Record × ChatEv))
    (h : pre.all chatStepOk = true) :
    processCommandModel (pre ++ (record, .err e) :: rest)
      = pre.map chatSuccess ++ [.errorRec (.vendor e)] := by
  induction pre with
  | nil => simp [processCommandModel]
  | cons p pre ih =>
    obtain ⟨rp, ev⟩ := p
    simp only [List.all_cons, Bool.and_eq_true] at h
    obtain ⟨h1, h2⟩ := h
    cases ev with
    | err e2 => simp [chatStepOk] at h1
    | ok resp writeOk =>
      have hw : writeOk = true := by simpa [chatStepOk] using h1
      subst hw
      simp [processCommandModel, setField, chatSuccess, ih h2]

/-- C7 witness: a three-record batch whose second call fails returns the
success result of the first record plus the error, and nothing for the third
record. -/
theorem command_error_stops_batch_witness :
    [(recA, ChatEv.ok "x" true)].all chatStepOk = true ∧
    processCommandModel [(recA, .ok "x" true), (rec0, .err .notFound), (recB, .ok "y" true)]
      = [.single { recA with response := some (.text "x") }, .errorRec (.vendor .notFound)] :=
  ⟨rfl, command_error_stops_batch [(recA, .ok "x" true)] rec0 .notFound
    [(recB, .ok "y" true)] rfl⟩

/-- C5 counterexample: the count rule is count > -1, so the negative
fractional count -1/2 passes parameter validation together with the default
factor 2 — parsing/validation does not reject every negative count value. -/
theorem backoff_count_fractional_negative_accepted :
    backoffParamsValid (-(1 : ℚ)/2) 2 = true ∧ -(1 : ℚ)/2 < 0 := by
  constructor
  · norm_num [backoffParamsValid]
  · norm_num

/-- C5 (amended): parameter validation rejects every count value less than or
equal to -1 (the rule is count > -1, so fractional values in (-1,0) are
accepted), and rejects zero and every negative factor value. -/
theorem backoff_params_rejections (count factor : ℚ) (h : count ≤ -1 ∨ factor ≤ 0) :
    backoffParamsValid count factor = false := by
  rcases h with h | h
  · have hn : ¬ (-1 : ℚ) < count := not_lt.mpr h
    simp [backoffParamsValid, hn]
  · have hn : ¬ (0 : ℚ) < factor := not_lt.mpr h
    simp [backoffParamsValid, hn]

/-- C5 amended witness: count -1 is rejected. -/
theorem backoff_params_rejections_witness :
    ((-1 : ℚ) ≤ -1 ∨ (2 : ℚ) ≤ 0) ∧ backoffParamsValid (-1) 2 = false :=
  ⟨Or.inl le_rfl, backoff_params_rejections (-1) 2 (Or.inl le_rfl)⟩

end Cohere
